import Mathlib

/-!
Verification of the prop-resolution and merging core of the `use-render`
library: primitive mergers (`mergeProps`, `resolveClassName`, `resolveStyle`,
`clsx`), the ref composer (`assignRef` / `mergeRefs`), and the three resolver
variants (`renderSlot`, `useRender`, `useRenderContainer`).

JavaScript objects are embedded as insertion-ordered association lists with
unique keys; property values carry an inductive value type with primitive
values and (event-handler) functions.  Handlers are modelled as functions
threading an explicit effect log, so that invocation order is observable.
Every definition is a direct transcription of the corresponding TypeScript
function.
-/

namespace UseRender

/-- A JavaScript object: insertion-ordered key/value association list.
Well-formed objects have pairwise-distinct keys. -/
abbrev JsObj (α : Type) := List (String × α)

/-- Property read `m[k]`: the first entry with key `k`, if any. -/
def lookup {α : Type} (m : JsObj α) (k : String) : Option α :=
  match m with
  | [] => none
  | kv :: rest => if kv.1 = k then some kv.2 else lookup rest k

/-- Property write `m[k] = v`: replaces the first entry with key `k` in place,
appends a new entry when the key is absent. -/
def objSet {α : Type} (m : JsObj α) (k : String) (v : α) : JsObj α :=
  match m with
  | [] => [(k, v)]
  | kv :: rest => if kv.1 = k then (k, v) :: rest else kv :: objSet rest k v

/-- Object spread `{...d, ...p}`: keys of `d` in order, entries of `p`
overriding on conflict and appended otherwise. -/
def spread {α : Type} (d p : JsObj α) : JsObj α :=
  p.foldl (fun acc kv => objSet acc kv.1 kv.2) d

/-- The key list of an object. -/
def keys {α : Type} (m : JsObj α) : List String := m.map Prod.fst

/-- `a` if present, otherwise `b` (helper for stating lookup results). -/
def orD {α : Type} (a b : Option α) : Option α :=
  match a with
  | some x => some x
  | none => b

/-- Primitive JavaScript values appearing in attribute maps. -/
inductive Prim : Type where
  | str (s : String)
  | num (n : Int)
  | bool (b : Bool)
  | null
  | undef
deriving DecidableEq, Repr

/-- An effect log recording handler side effects (e.g. pushes onto an array). -/
abbrev Log := List String

/-- An attribute value: a primitive, or a function (event handler).  A handler
receives primitive arguments and the current effect log and either returns the
extended log with a primitive result, or `none` (it threw). -/
inductive Val : Type where
  | prim (p : Prim)
  | fn (h : List Prim → Log → Option (Log × Prim))

/-- JavaScript truthiness for primitives (`""`, `0`, `false`, `null`,
`undefined` are falsy). -/
def truthyPrim : Prim → Bool
  | .str s => s != ""
  | .num n => n != 0
  | .bool b => b
  | .null => false
  | .undef => false

/-- JavaScript truthiness for attribute values; every function is truthy. -/
def truthy : Val → Bool
  | .prim p => truthyPrim p
  | .fn _ => true

/-- Truthiness of an optional value; an absent property reads as `undefined`,
which is falsy. -/
def truthyO : Option Val → Bool
  | some v => truthy v
  | none => false

/-- The handler naming convention `/^on[A-Z]/`: the key starts with `"on"`
followed by an ASCII capital letter. -/
def isHandlerKey (k : String) : Bool :=
  match k.data with
  | 'o' :: 'n' :: c :: _ => c.isUpper
  | _ => false

/-- Invoking an attribute value as a function: calling a non-function throws
(`none`). -/
def callVal (v : Val) (args : List Prim) (log : Log) : Option (Log × Prim) :=
  match v with
  | .fn h => h args log
  | .prim _ => none

/-- Invoking an optional attribute value (an absent property is `undefined`,
and calling it throws). -/
def callValO (v : Option Val) (args : List Prim) (log : Log) :
    Option (Log × Prim) :=
  match v with
  | some v => callVal v args log
  | none => none

/-- The composed event handler built by `mergeProps`:
`(...args) => { const userResult = props[key](...args);
defaultProps[key](...args); return userResult }`. -/
def composeHandlers (userHandler defaultHandler : Option Val) : Val :=
  .fn (fun args log =>
    match callValO userHandler args log with
    | none => none
    | some (log1, userResult) =>
      match callValO defaultHandler args log1 with
      | none => none
      | some (log2, _) => some (log2, userResult))

/-- An attribute map. -/
abbrev Obj := JsObj Val

/-- The condition guarding handler composition in `mergeProps`:
`/^on[A-Z]/.test(key) && defaultProps[key] && props[key]`. -/
def handlerCond (defaultProps props : Obj) (k : String) : Bool :=
  isHandlerKey k && truthyO (lookup defaultProps k) && truthyO (lookup props k)

/-- One iteration of the `for key in defaultProps` loop of `mergeProps`. -/
def handlerStep (defaultProps props : Obj) (result : Obj) (k : String) : Obj :=
  if handlerCond defaultProps props k then
    objSet result k (composeHandlers (lookup props k) (lookup defaultProps k))
  else result

/-- `mergeProps` from `utils.ts`: start from the spread
`{...defaultProps, ...props}`, then for every key of `defaultProps` matching
the handler convention with truthy values on both sides, install the composed
handler (consumer handler first, then default, returning the consumer
result). -/
def mergeProps (defaultProps props : Obj) : Obj :=
  (keys defaultProps).foldl (handlerStep defaultProps props)
    (spread defaultProps props)

/-- One step of the loop inside the local `clsx` of `utils.ts`:
when the argument is a truthy string, append it, preceded by a single
separator space when the accumulator is non-empty.
A class-name argument is an optional string; `none` (undefined) and `""` are
falsy and skipped. -/
def clsxAdd (str : String) (v : Option String) : String :=
  match v with
  | some s => if s != "" then (if str != "" then str ++ " " ++ s else s) else str
  | none => str

/-- The local `clsx` of `utils.ts` (also exported as `cx`), restricted to
string/undefined arguments: joins the truthy strings with single spaces,
returning `""` when none remain. -/
def clsx (inputs : List (Option String)) : String :=
  inputs.foldl clsxAdd ""

/-- A class-name configuration value (`ClassName<State>`): a string,
`undefined`, or a function of the state and the resolved base class name. -/
inductive CN (S : Type) : Type where
  | undef
  | str (s : String)
  | fn (f : S → Option String → Option String)

/-- Resolving a class-name configuration value standing on the base side:
`isFunction(defaultClassName) ? defaultClassName(state) : defaultClassName`
(the base function is called with the state only, so its second parameter is
`undefined`). -/
def resolveBaseCN {S : Type} (state : S) (c : CN S) : Option String :=
  match c with
  | .fn f => f state none
  | .str s => some s
  | .undef => none

/-- `resolveClassName(state, defaultClassName, propsClassName)` from
`utils.ts`: resolve the base value, then — if the consumer value is a function
call it with `(state, resolvedDefault)` and return its result directly; if it
is a string merge via `clsx`; if it is `undefined` return the resolved base. -/
def resolveClassName {S : Type} (state : S) (defaultClassName propsClassName : CN S) :
    Option String :=
  let resolvedDefault := resolveBaseCN state defaultClassName
  match propsClassName with
  | .fn f => f state resolvedDefault
  | .str s => some (clsx [resolvedDefault, some s])
  | .undef => resolvedDefault

/-- A style object: a plain CSS-like key/value mapping. -/
abbrev StyleObj := JsObj String

/-- A style configuration value (`Style<State>`): an object, `undefined`, or a
function of the state and the resolved base style. -/
inductive STy (S : Type) : Type where
  | undef
  | obj (o : StyleObj)
  | fn (f : S → Option StyleObj → Option StyleObj)

/-- Resolving a style configuration value standing on the base side. -/
def resolveBaseSTy {S : Type} (state : S) (c : STy S) : Option StyleObj :=
  match c with
  | .fn f => f state none
  | .obj o => some o
  | .undef => none

/-- `resolveStyle(state, defaultStyle, propsStyle)` from `utils.ts`: resolve
the base value; a consumer function receives `(state, resolvedDefault)`; a
consumer object is merged over a truthy resolved default via object spread
(`resolvedDefault ? {...resolvedDefault, ...propsStyle} : propsStyle` — every
object, including the empty one, is truthy); `undefined` yields the resolved
base. -/
def resolveStyle {S : Type} (state : S) (defaultStyle propsStyle : STy S) :
    Option StyleObj :=
  let resolvedDefault := resolveBaseSTy state defaultStyle
  match propsStyle with
  | .fn f => f state resolvedDefault
  | .obj o =>
    match resolvedDefault with
    | some b => some (spread b o)
    | none => some o
  | .undef => resolvedDefault

/-- A rendered element instance (for the ref composer). -/
abbrev Inst := Nat

/-- Observable ref events: writing the `current` slot of an object ref, invoking a
callback ref, and running a cleanup returned by a callback ref. -/
inductive RefEvent : Type where
  | objAssign (idx : Nat) (v : Option Inst)
  | cbCall (id : Nat) (v : Option Inst)
  | cbCleanupRun (id : Nat)
deriving DecidableEq, Repr

/-- The world the ref composer acts on: the `current` slots of all object refs
(indexed by `Nat`) and a log of observable events in order. -/
structure RefWorld : Type where
  slots : Nat → Option Inst
  log : List RefEvent

/-- A ref target: an object ref with a mutable `current` slot, or a callback
ref (identified by `id`) that logs its invocations and either returns a
cleanup action (which logs its run) or returns nothing. -/
inductive RefTarget : Type where
  | obj (idx : Nat)
  | cb (id : Nat) (returnsCleanup : Bool)
deriving DecidableEq, Repr

/-- A recorded cleanup action. -/
abbrev Cleanup := RefWorld → RefWorld

/-- `assignRef(ref, value)` from `use-composed-ref.ts`: a function ref is
invoked (possibly yielding a cleanup), a truthy object ref has its `current`
slot written, and a `null`/`undefined` ref is skipped; the return value is the
cleanup returned by the callback, if any. -/
def assignRef (ref : Option RefTarget) (value : Option Inst) (w : RefWorld) :
    RefWorld × Option Cleanup :=
  match ref with
  | none => (w, none)
  | some (.obj idx) =>
    ({ slots := fun j => if j = idx then value else w.slots j,
       log := w.log ++ [.objAssign idx value] }, none)
  | some (.cb id returnsCleanup) =>
    ({ w with log := w.log ++ [.cbCall id value] },
     if returnsCleanup then
       some (fun w2 => { w2 with log := w2.log ++ [.cbCleanupRun id] })
     else none)

/-- The loop body of `mergeRefs`: assign the value to one ref and record its
cleanup, synthesizing `() => assignRef(ref, null)` when the assignment
returned none. -/
def mergeRefsStep (value : Option Inst) (acc : RefWorld × List Cleanup)
    (ref : Option RefTarget) : RefWorld × List Cleanup :=
  match assignRef ref value acc.1 with
  | (w, some cleanup) => (w, acc.2 ++ [cleanup])
  | (w, none) => (w, acc.2 ++ [fun w2 => (assignRef ref none w2).1])

/-- Attachment pass of the callback produced by `mergeRefs(refs)`: assign the
value to every ref in list order, collecting one cleanup per ref. -/
def mergeRefsAttach (refs : List (Option RefTarget)) (value : Option Inst)
    (w : RefWorld) : RefWorld × List Cleanup :=
  refs.foldl (mergeRefsStep value) (w, [])

/-- Running the recorded cleanups in the order they were recorded (the
function returned by the `mergeRefs` callback). -/
def runCleanups (cs : List Cleanup) (w : RefWorld) : RefWorld :=
  cs.foldl (fun w2 c => c w2) w

/-- `mergeRefs(refs)` from `use-composed-ref.ts`, applied to a value: performs
the attachment pass and returns the detach action that runs all recorded
cleanups in order. -/
def mergeRefs (refs : List (Option RefTarget)) (value : Option Inst)
    (w : RefWorld) : RefWorld × Cleanup :=
  let (w1, cleanups) := mergeRefsAttach refs value w
  (w1, fun w2 => runCleanups cleanups w2)

/-- The attach-phase event contributed by one ref target for a given value:
object refs log a slot write, callback refs log an invocation, absent refs
contribute nothing. -/
def attachEvent (value : Option Inst) (ref : Option RefTarget) :
    Option RefEvent :=
  match ref with
  | none => none
  | some (.obj idx) => some (.objAssign idx value)
  | some (.cb id _) => some (.cbCall id value)

/-- The detach-phase event contributed by one ref target: a recorded callback
cleanup logs its run; the synthesized cleanup of a callback without one calls
the callback with `null`; the synthesized cleanup of an object ref writes
`null` to its slot; absent refs contribute nothing. -/
def detachEvent (ref : Option RefTarget) : Option RefEvent :=
  match ref with
  | none => none
  | some (.obj idx) => some (.objAssign idx none)
  | some (.cb id true) => some (.cbCleanupRun id)
  | some (.cb id false) => some (.cbCall id none)

/-- A children value (`ReactNode` possibly given as a function of state):
`undefined`, `null`, a renderable text node, or a function from state to a
children value. -/
inductive Kids (S : Type) : Type where
  | undef
  | null
  | text (s : String)
  | fn (f : S → Kids S)

/-- JavaScript nullishness (`??` fallback condition) for children values. -/
def kidsNullish {S : Type} (k : Kids S) : Bool :=
  match k with
  | .undef => true
  | .null => true
  | _ => false

/-- `isFunction(children) ? children(state) : children`. -/
def resolveKids {S : Type} (k : Kids S) (state : S) : Kids S :=
  match k with
  | .fn f => f state
  | k => k

/-- The resolved attribute object built by every resolver: the merged
pass-through attributes, plus the conditionally attached `className` and
`style` entries (`none` means the entry is absent). -/
structure RProps : Type where
  attrs : Obj
  className : Option String
  style : Option StyleObj

/-- The renderable value a resolver returns: a fresh element
(`createElement(tag, props, children)`) or a clone of a consumer-supplied
element (`cloneElement(render, props, children)`, identified by `id`). -/
inductive RNode (S : Type) : Type where
  | created (tag : String) (props : RProps) (children : Kids S)
  | cloned (id : Nat) (props : RProps) (children : Kids S)

/-- A positional argument passed to a consumer `render` function: the state
value or the resolved attribute object with children attached. -/
inductive RArg (S : Type) : Type where
  | state (s : S)
  | props (p : RProps × Kids S)

/-- A render override: absent, an element instance to clone, or a function of
two positional arguments. -/
inductive Render (S : Type) : Type where
  | none
  | elem (id : Nat)
  | fn (f : RArg S → RArg S → RNode S)

/-- The destructured `defaultProps` of `useRender` (`use-render.ts`):
`className`, `style`, `children`, and the remaining attributes `...defaults`. -/
structure URBase (S : Type) : Type where
  className : CN S
  style : STy S
  children : Kids S
  attrs : Obj

/-- The destructured consumer `props` of `useRender`: `className`, `style`,
`children`, `render`, and the remaining attributes `...rest` (the consumer
`ref` is handled by the ref composer and does not reach the attribute map). -/
structure URProps (S : Type) : Type where
  className : CN S
  style : STy S
  children : Kids S
  render : Render S
  attrs : Obj

/-- The `resolvedProps` object of `useRender`: merged pass-through attributes,
with `className` attached exactly when `resolveClassName` produced a string and
`style` attached exactly when `resolveStyle` produced an object. -/
def resolveRenderProps {S : Type} (state : S) (base : URBase S)
    (props : URProps S) : RProps :=
  { attrs := mergeProps base.attrs props.attrs,
    className := resolveClassName state base.className props.className,
    style := resolveStyle state base.style props.style }

/-- `useRender(tag, state, options)` from `use-render.ts` (ref composition,
which never reaches the attribute map, elided): resolve className/style with
the state, merge the remaining attributes, resolve the consumer children
(invoking a function with the state), and dispatch on the render override —
clone an element with the resolved props and children, invoke a render
function as `render(state, {...resolvedProps, children})`, or create the
default tag with `resolvedChildren ?? defaultChildren`. -/
def useRender {S : Type} (tag : String) (state : S) (base : URBase S)
    (props : URProps S) : RNode S :=
  let resolvedProps := resolveRenderProps state base props
  let resolvedChildren := resolveKids props.children state
  match props.render with
  | .elem id => .cloned id resolvedProps resolvedChildren
  | .fn f => f (.state state) (.props (resolvedProps, resolvedChildren))
  | .none =>
    .created tag resolvedProps
      (if kidsNullish resolvedChildren then base.children else resolvedChildren)

/-- The destructured `baseProps` of `renderSlot` (`fns/render-slot.ts`):
plain `className`/`style`/`children` and the remaining attributes. -/
structure SlotBase : Type where
  className : Option String
  style : Option StyleObj
  children : Kids Unit
  attrs : Obj

/-- A stateless slot render override: the render function receives a single
argument, the resolved attribute object with children attached. -/
inductive SlotRender : Type where
  | none
  | elem (id : Nat)
  | fn (f : RProps × Kids Unit → RNode Unit)

/-- The destructured consumer `props` of `renderSlot`. -/
structure SlotProps : Type where
  className : Option String
  style : Option StyleObj
  children : Kids Unit
  render : SlotRender
  attrs : Obj

/-- The `resolvedProps` object of `renderSlot`: `className` is
`cx(baseClassName, className)` (always a string, hence always attached);
`style` is `baseStyle || style ? {...baseStyle, ...style} : undefined`
(attached exactly when either side is present, every object being truthy). -/
def resolveSlotProps (base : SlotBase) (props : SlotProps) : RProps :=
  { attrs := mergeProps base.attrs props.attrs,
    className := some (clsx [base.className, props.className]),
    style :=
      if base.style.isSome || props.style.isSome then
        some (spread (base.style.getD []) (props.style.getD []))
      else none }

/-- `renderSlot(tag, options)` from `fns/render-slot.ts`: merge props, resolve
children via `children ?? baseChildren`, and dispatch on the render
override. -/
def renderSlot (tag : String) (base : SlotBase) (props : SlotProps) :
    RNode Unit :=
  let resolvedProps := resolveSlotProps base props
  let resolvedChildren :=
    if kidsNullish props.children then base.children else props.children
  match props.render with
  | .elem id => .cloned id resolvedProps resolvedChildren
  | .fn f => f (resolvedProps, resolvedChildren)
  | .none => .created tag resolvedProps resolvedChildren

/-- The destructured `baseProps` of `useRenderContainer`
(`use-render-container.ts`): static `className`/`style`, default per-item
`children` (a value or a function of item state), and the remaining
attributes. -/
structure CBase (IS : Type) : Type where
  className : Option String
  style : Option StyleObj
  children : Kids IS
  attrs : Obj

/-- The destructured consumer `props` of `useRenderContainer`:
`className`/`style`/`render` resolve against container state, `children`
against item state. -/
structure CProps (CS IS : Type) : Type where
  className : CN CS
  style : STy CS
  children : Kids IS
  render : Render CS
  attrs : Obj

/-- Embeds a plain optional string as a class-name configuration value. -/
def cnOfOpt {S : Type} (c : Option String) : CN S :=
  match c with
  | some s => .str s
  | none => CN.undef

/-- Embeds a plain optional style object as a style configuration value. -/
def styOfOpt {S : Type} (c : Option StyleObj) : STy S :=
  match c with
  | some o => .obj o
  | none => STy.undef

/-- The result of `useRenderContainer`: the `Container` component (a function
of the container children tree), the per-item `renderItem` function, and the
resolved container props. -/
structure ContainerResult (CS IS : Type) : Type where
  container : Kids CS → RNode CS
  renderItem : IS → Kids IS
  containerProps : RProps

/-- `useRenderContainer(tag, containerState, options)` from
`use-render-container.ts`: className/style resolve against the container state
only; `Container` spreads the resolved props with the caller-supplied children
and dispatches on the render override, invoking a render function as
`render(propsWithChildren, containerState)`; `renderItem(itemState)` picks
`children !== undefined ? children : baseChildren` and invokes it with the
item state when it is a function. -/
def useRenderContainer {CS IS : Type} (tag : String) (containerState : CS)
    (base : CBase IS) (props : CProps CS IS) : ContainerResult CS IS :=
  let resolvedProps : RProps :=
    { attrs := mergeProps base.attrs props.attrs,
      className :=
        resolveClassName containerState (cnOfOpt base.className) props.className,
      style := resolveStyle containerState (styOfOpt base.style) props.style }
  { container := fun containerChildren =>
      match props.render with
      | .elem id => .cloned id resolvedProps containerChildren
      | .fn f => f (.props (resolvedProps, containerChildren)) (.state containerState)
      | .none => .created tag resolvedProps containerChildren,
    renderItem := fun itemState =>
      let childrenToRender :=
        match props.children with
        | .undef => base.children
        | c => c
      resolveKids childrenToRender itemState,
    containerProps := resolvedProps }

/-- The cleanup action recorded by `mergeRefs` for one ref target: the
callback-returned cleanup when there is one, the synthesized
`() => assignRef(ref, null)` otherwise. -/
def recordedCleanup (ref : Option RefTarget) : Cleanup :=
  match ref with
  | some (.cb id true) =>
    fun w2 => { w2 with log := w2.log ++ [.cbCleanupRun id] }
  | _ => fun w2 => (assignRef ref none w2).1

/-! ### Concrete instances used in witnesses and counterexamples -/

/-- The "default" handler of the handler-chaining test in the specification: pushes
`"default"` onto the log and returns `"default-result"`. -/
def defaultHandler : List Prim → Log → Option (Log × Prim) :=
  fun _ log => some (log ++ ["default"], .str "default-result")

/-- The "user" handler of the handler-chaining test in the specification: pushes
`"user"` onto the log and returns `"user-result"`. -/
def userHandler : List Prim → Log → Option (Log × Prim) :=
  fun _ log => some (log ++ ["user"], .str "user-result")

/-- `{onClick: f}` with `f` the default handler. -/
def exDefaultProps : Obj := [("onClick", .fn defaultHandler)]

/-- `{onClick: g}` with `g` the user handler. -/
def exUserProps : Obj := [("onClick", .fn userHandler)]

/-- A render function that reports the kind of its first positional argument
in the tag of the node it returns. -/
def probeRender : RArg Nat → RArg Nat → RNode Nat :=
  fun a _ =>
    match a with
    | .state _ => RNode.created "first-arg-state" ⟨[], none, none⟩ .undef
    | .props _ => RNode.created "first-arg-props" ⟨[], none, none⟩ Kids.undef

/-- Empty container base props. -/
def probeCBase : CBase Nat := ⟨none, none, .undef, []⟩

/-- Container consumer props whose render override is the probing function. -/
def probeCProps : CProps Nat Nat := ⟨.undef, .undef, .undef, .fn probeRender, []⟩

/-- `useRender` base props carrying only `children: "Default"`. -/
def cloneExBase : URBase Nat := ⟨.undef, .undef, .text "Default", []⟩

/-- `useRender` consumer props carrying only an element render override. -/
def cloneExProps : URProps Nat := ⟨.undef, .undef, .undef, .elem 5, []⟩

/-- `renderSlot` base props carrying only `children: "Default"`. -/
def slotExBase : SlotBase := ⟨none, none, .text "Default", []⟩

/-- `renderSlot` consumer props passing `children: null` explicitly. -/
def slotNullChildrenProps : SlotProps := ⟨none, none, .null, .none, []⟩

/-- `renderSlot` base props whose style is the empty object `{}`. -/
def slotEmptyStyleBase : SlotBase := ⟨none, some [], .undef, []⟩

/-- `renderSlot` consumer props with nothing set. -/
def slotEmptyProps : SlotProps := ⟨none, none, .undef, .none, []⟩

/-- A consumer class-name function override that always returns `undefined`. -/
def cnFnNone {S : Type} : CN S := .fn (fun _ _ => none)

/-- The ref-target list used in the ref-composer witness: an object ref, an
absent slot, a callback ref with a cleanup, and a callback ref without one. -/
def exRefs : List (Option RefTarget) :=
  [some (.obj 0), none, some (.cb 1 true), some (.cb 2 false)]

/-- An initial ref world: all slots empty, empty log. -/
def emptyWorld : RefWorld := ⟨fun _ => none, []⟩

/-- `{title: "base", role: "list"}`: a base map with non-handler keys. -/
def c7Base : Obj := [("title", .prim (.str "base")), ("role", .prim (.str "list"))]

/-- `{title: "user"}`: an override map conflicting on a non-handler key. -/
def c7Props : Obj := [("title", .prim (.str "user"))]

/-- Empty `useRender` base props. -/
def c2URBase : URBase Nat := ⟨.undef, .undef, .undef, []⟩

/-- `useRender` consumer props whose render override is the probing
function. -/
def c2URProps : URProps Nat := ⟨.undef, .undef, .undef, .fn probeRender, []⟩

/-- Container base props with default item children `"B"`. -/
def c5Base : CBase Nat := ⟨none, none, .text "B", []⟩

/-- A second container base, with different default item children. -/
def c5Base2 : CBase Nat := ⟨none, none, .text "B2", []⟩

/-- Container consumer props whose children are a function of item state. -/
def c5Props : CProps Nat Nat :=
  ⟨.undef, .undef, .fn (fun n => if n = 0 then .text "Apple" else .null),
   .none, []⟩

/-- `renderSlot` consumer props passing children `"Mine"`. -/
def c8WitProps : SlotProps := ⟨none, none, .text "Mine", .none, []⟩

/-- `renderSlot` base props with style `{padding: "10px", margin: "5px"}`. -/
def c9WitBase : SlotBase :=
  ⟨none, some [("padding", "10px"), ("margin", "5px")], .undef, []⟩

/-- `renderSlot` consumer props with style `{padding: "20px", color: "red"}`. -/
def c9WitProps : SlotProps :=
  ⟨none, some [("padding", "20px"), ("color", "red")], .undef, .none, []⟩

/-- `useRender` base props with className `"card"`. -/
def c10Base : URBase Nat := ⟨.str "card", .undef, .undef, []⟩

/-- `useRender` consumer props whose className function returns `undefined`. -/
def c10Props : URProps Nat := ⟨cnFnNone, .undef, .undef, .none, []⟩

/-! ### Lookup lemmas for the object model -/

theorem lookup_objSet {α : Type} (m : JsObj α) (k k' : String) (v : α) :
    lookup (objSet m k v) k' = if k = k' then some v else lookup m k' := by
  induction m with
  | nil => simp [objSet, lookup]
  | cons kv rest ih =>
    by_cases h : kv.1 = k
    · by_cases h2 : k = k' <;> simp [objSet, lookup, h, h2]
    · by_cases h2 : kv.1 = k' <;> by_cases h3 : k = k' <;>
        simp_all [objSet, lookup]

theorem keys_cons {α : Type} (kv : String × α) (m : JsObj α) :
    keys (kv :: m) = kv.1 :: keys m := rfl

theorem mem_keys_iff_lookup {α : Type} (m : JsObj α) (k : String) :
    k ∈ keys m ↔ (lookup m k).isSome := by
  induction m with
  | nil => simp [keys, lookup]
  | cons kv rest ih =>
    rw [keys_cons, List.mem_cons]
    by_cases h : kv.1 = k
    · simp [lookup, h]
    · have h' : ¬k = kv.1 := fun hh => h hh.symm
      simp [lookup, h, h', ih]

theorem lookup_eq_none_of_not_mem {α : Type} (m : JsObj α) (k : String)
    (h : k ∉ keys m) : lookup m k = none := by
  have := (mem_keys_iff_lookup m k).not.mp h
  cases hl : lookup m k with
  | none => rfl
  | some v => rw [hl] at this; simp at this

theorem spread_cons {α : Type} (d : JsObj α) (kv : String × α) (p : JsObj α) :
    spread d (kv :: p) = spread (objSet d kv.1 kv.2) p := rfl

theorem lookup_spread {α : Type} (d p : JsObj α) (k : String)
    (hp : (keys p).Nodup) :
    lookup (spread d p) k = orD (lookup p k) (lookup d k) := by
  induction p generalizing d with
  | nil => simp [spread, lookup, orD]
  | cons kv rest ih =>
    rw [keys_cons] at hp
    obtain ⟨hhead, htail⟩ := List.nodup_cons.mp hp
    rw [spread_cons, ih _ htail, lookup_objSet]
    by_cases h : kv.1 = k
    · subst h
      rw [lookup_eq_none_of_not_mem rest kv.1 hhead]
      simp [lookup, orD]
    · simp [lookup, h, orD]

theorem orD_isSome {α : Type} (a b : Option α) :
    (orD a b).isSome ↔ (a.isSome ∨ b.isSome) := by
  cases a <;> simp [orD]

/-! ### Characterization of `mergeProps` -/

theorem truthyO_isSome (o : Option Val) (h : truthyO o = true) : o.isSome := by
  cases o with
  | none => simp [truthyO] at h
  | some v => rfl

theorem lookup_handlerFoldl (d p : Obj) (ks : List String) (res : Obj)
    (k : String) :
    lookup (ks.foldl (handlerStep d p) res) k =
      if k ∈ ks ∧ handlerCond d p k then
        some (composeHandlers (lookup p k) (lookup d k))
      else lookup res k := by
  induction ks generalizing res with
  | nil => simp
  | cons k1 ks ih =>
    rw [List.foldl_cons, ih]
    by_cases hc : handlerCond d p k = true
    · by_cases hmem : k ∈ ks
      · simp [hmem, hc]
      · by_cases hk1 : k = k1
        · subst hk1
          simp [hmem, hc, handlerStep, lookup_objSet]
        · simp only [List.mem_cons]
          rw [if_neg (by tauto), if_neg (by tauto)]
          unfold handlerStep
          by_cases hc1 : handlerCond d p k1 = true
          · rw [if_pos hc1, lookup_objSet, if_neg (fun h => hk1 h.symm)]
          · rw [if_neg hc1]

    · rw [if_neg (by tauto), if_neg (by tauto)]
      unfold handlerStep
      by_cases hc1 : handlerCond d p k1 = true
      · rw [if_pos hc1, lookup_objSet]
        by_cases hk1 : k1 = k
        · subst hk1; exact absurd hc1 hc
        · rw [if_neg hk1]
      · rw [if_neg hc1]

theorem lookup_mergeProps (d p : Obj) (k : String) (hp : (keys p).Nodup) :
    lookup (mergeProps d p) k =
      if handlerCond d p k then
        some (composeHandlers (lookup p k) (lookup d k))
      else orD (lookup p k) (lookup d k) := by
  unfold mergeProps
  rw [lookup_handlerFoldl, lookup_spread d p k hp]
  by_cases hc : handlerCond d p k = true
  · have hmem : k ∈ keys d := by
      rw [mem_keys_iff_lookup]
      apply truthyO_isSome
      unfold handlerCond at hc
      cases hdd : truthyO (lookup d k) with
      | true => rfl
      | false => rw [hdd] at hc; simp at hc
    simp [hc, hmem]
  · simp [hc]

/-! ### Ref composer lemmas -/

theorem mergeRefsStep_fst (value : Option Inst) (acc : RefWorld × List Cleanup)
    (ref : Option RefTarget) :
    (mergeRefsStep value acc ref).1 = (assignRef ref value acc.1).1 := by
  unfold mergeRefsStep
  rcases h : assignRef ref value acc.1 with ⟨w, c⟩
  cases c <;> simp

theorem mergeRefsStep_snd (value : Option Inst) (acc : RefWorld × List Cleanup)
    (ref : Option RefTarget) :
    (mergeRefsStep value acc ref).2 = acc.2 ++ [recordedCleanup ref] := by
  cases ref with
  | none => rfl
  | some t =>
    cases t with
    | obj idx => rfl
    | cb id rc => cases rc <;> rfl

theorem assignRef_fst_log (ref : Option RefTarget) (value : Option Inst)
    (w : RefWorld) :
    (assignRef ref value w).1.log = w.log ++ (attachEvent value ref).toList := by
  cases ref with
  | none => simp [assignRef, attachEvent]
  | some t => cases t <;> simp [assignRef, attachEvent]

theorem assignRef_fst_slots (ref : Option RefTarget) (value : Option Inst)
    (w : RefWorld) (j : Nat) :
    (assignRef ref value w).1.slots j =
      if ref = some (.obj j) then value else w.slots j := by
  cases ref with
  | none => simp [assignRef]
  | some t =>
    cases t with
    | obj idx =>
      by_cases h : j = idx
      · simp [assignRef, h]
      · have h2 : ¬idx = j := fun hh => h hh.symm
        simp [assignRef, h, h2]
    | cb id rc => simp [assignRef]

theorem attachFoldl_fst_log (refs : List (Option RefTarget))
    (value : Option Inst) (w : RefWorld) (cs : List Cleanup) :
    (refs.foldl (mergeRefsStep value) (w, cs)).1.log =
      w.log ++ refs.filterMap (attachEvent value) := by
  induction refs generalizing w cs with
  | nil => simp
  | cons ref rest ih =>
    rw [List.foldl_cons]
    rcases hstep : mergeRefsStep value (w, cs) ref with ⟨w', cs'⟩
    have hw' : w' = (assignRef ref value w).1 := by
      have := mergeRefsStep_fst value (w, cs) ref
      rw [hstep] at this; exact this
    rw [ih w' cs', hw', assignRef_fst_log, List.filterMap_cons]
    cases attachEvent value ref <;> simp

theorem attachFoldl_fst_slots (refs : List (Option RefTarget))
    (value : Option Inst) (w : RefWorld) (cs : List Cleanup) (j : Nat) :
    (refs.foldl (mergeRefsStep value) (w, cs)).1.slots j =
      if some (RefTarget.obj j) ∈ refs then value else w.slots j := by
  induction refs generalizing w cs with
  | nil => simp
  | cons ref rest ih =>
    rw [List.foldl_cons]
    rcases hstep : mergeRefsStep value (w, cs) ref with ⟨w', cs'⟩
    have hw' : w' = (assignRef ref value w).1 := by
      have := mergeRefsStep_fst value (w, cs) ref
      rw [hstep] at this; exact this
    rw [ih w' cs', hw', assignRef_fst_slots]
    by_cases hmem : some (RefTarget.obj j) ∈ rest
    · simp [hmem]
    · by_cases hr : ref = some (RefTarget.obj j)
      · simp [hmem, hr, List.mem_cons]
      · have hr2 : ¬some (RefTarget.obj j) = ref := fun hh => hr hh.symm
        simp [hmem, hr, hr2, List.mem_cons]

theorem attachFoldl_snd (refs : List (Option RefTarget)) (value : Option Inst)
    (w : RefWorld) (cs : List Cleanup) :
    (refs.foldl (mergeRefsStep value) (w, cs)).2 =
      cs ++ refs.map recordedCleanup := by
  induction refs generalizing w cs with
  | nil => simp
  | cons ref rest ih =>
    rw [List.foldl_cons]
    rcases hstep : mergeRefsStep value (w, cs) ref with ⟨w', cs'⟩
    have hcs' : cs' = cs ++ [recordedCleanup ref] := by
      have := mergeRefsStep_snd value (w, cs) ref
      rw [hstep] at this; exact this
    rw [ih w' cs', hcs', List.map_cons, List.append_assoc]
    rfl

theorem recordedCleanup_log (ref : Option RefTarget) (w2 : RefWorld) :
    (recordedCleanup ref w2).log = w2.log ++ (detachEvent ref).toList := by
  cases ref with
  | none => simp [recordedCleanup, assignRef, detachEvent]
  | some t =>
    cases t with
    | obj idx => simp [recordedCleanup, assignRef, detachEvent]
    | cb id rc =>
      cases rc <;> simp [recordedCleanup, assignRef, detachEvent]

theorem runCleanups_map_log (refs : List (Option RefTarget)) (w2 : RefWorld) :
    (runCleanups (refs.map recordedCleanup) w2).log =
      w2.log ++ refs.filterMap detachEvent := by
  induction refs generalizing w2 with
  | nil => simp [runCleanups]
  | cons ref rest ih =>
    have hstep : runCleanups ((ref :: rest).map recordedCleanup) w2 =
        runCleanups (rest.map recordedCleanup) (recordedCleanup ref w2) := rfl
    rw [hstep, ih, recordedCleanup_log, List.filterMap_cons]
    cases detachEvent ref <;> simp

/-! ### Claim theorems -/

/-- C1: for every key matching the handler naming convention at which both the
base map and the override map hold a function, the merged attribute map holds
a new function that, for all argument lists, invokes the override handler
first and the base handler second with the same arguments, and returns the
return value of the override handler (the value of the base handler is
discarded). -/
theorem mergeProps_handler_chain (d p : Obj) (k : String)
    (f g : List Prim → Log → Option (Log × Prim))
    (hp : (keys p).Nodup)
    (hk : isHandlerKey k = true)
    (hd : lookup d k = some (.fn f))
    (hpv : lookup p k = some (.fn g))
    (args : List Prim) (log : Log) :
    (∃ h, lookup (mergeProps d p) k = some (.fn h))
    ∧ callValO (lookup (mergeProps d p) k) args log =
        (match g args log with
         | none => none
         | some (log1, userResult) =>
           match f args log1 with
           | none => none
           | some (log2, _) => some (log2, userResult)) := by
  have hc : handlerCond d p k = true := by
    simp [handlerCond, hk, hd, hpv, truthyO, truthy]
  rw [lookup_mergeProps d p k hp, if_pos hc]
  refine ⟨⟨_, rfl⟩, ?_⟩
  rw [hd, hpv]
  rfl

/-- C1 witness: `mergeProps({onClick: f}, {onClick: g})` at `onClick`, invoked
on the empty argument list and an empty log, records the invocation order
`["user", "default"]` and returns the result of `g`, `"user-result"`. -/
theorem mergeProps_handler_chain_witness :
    callValO (lookup (mergeProps exDefaultProps exUserProps) "onClick") [] [] =
      some (["user", "default"], .str "user-result") := by
  have h := mergeProps_handler_chain exDefaultProps exUserProps "onClick"
    defaultHandler userHandler (by decide) (by decide) rfl rfl [] []
  rw [h.2]
  rfl

/-- C7: every key present in either input map is present in the merged map,
and at every non-handler key present in the override map, the merged map holds
the override value unchanged. -/
theorem mergeProps_key_union_and_override (d p : Obj) (k : String) (v : Val)
    (hp : (keys p).Nodup) :
    ((k ∈ keys d ∨ k ∈ keys p) → k ∈ keys (mergeProps d p))
    ∧ (isHandlerKey k = false → lookup p k = some v →
        lookup (mergeProps d p) k = some v) := by
  constructor
  · intro hmem
    rw [mem_keys_iff_lookup, lookup_mergeProps d p k hp]
    by_cases hc : handlerCond d p k = true
    · simp [hc]
    · rw [if_neg hc]
      rw [orD_isSome]
      rcases hmem with h | h
      · exact Or.inr ((mem_keys_iff_lookup d k).mp h)
      · exact Or.inl ((mem_keys_iff_lookup p k).mp h)
  · intro hk hv
    have hc : handlerCond d p k = false := by
      simp [handlerCond, hk]
    rw [lookup_mergeProps d p k hp, if_neg (by simp [hc]), hv]
    rfl

/-- C7 witness: merging `{title: "base", role: "list"}` with
`{title: "user"}` keeps the key `title` and resolves it to the override
value. -/
theorem mergeProps_key_union_and_override_witness :
    "title" ∈ keys (mergeProps c7Base c7Props)
    ∧ lookup (mergeProps c7Base c7Props) "title" = some (.prim (.str "user")) :=
  ⟨(mergeProps_key_union_and_override c7Base c7Props "title"
      (.prim (.str "user")) (by decide)).1 (Or.inl (by decide)),
   (mergeProps_key_union_and_override c7Base c7Props "title"
      (.prim (.str "user")) (by decide)).2 (by decide) rfl⟩

/-- C3: `resolveClassName` returns the result of the override function verbatim
when the override is a function (called with the state and the resolved base);
joins two non-empty plain strings with a single space; inserts no separator
when either side is empty or undefined; and returns the resolved base when the
override is absent. -/
theorem resolveClassName_spec {S : Type} (state : S) (base override : CN S)
    (f : S → Option String → Option String) (s b : String) :
    (override = .fn f →
      resolveClassName state base override = f state (resolveBaseCN state base))
    ∧ (override = .str s → s ≠ "" → resolveBaseCN state base = some b →
        b ≠ "" →
        resolveClassName state base override = some (b ++ " " ++ s))
    ∧ (override = .str s → s ≠ "" →
        (resolveBaseCN state base = none ∨ resolveBaseCN state base = some "") →
        resolveClassName state base override = some s)
    ∧ (override = .str "" →
        resolveClassName state base override =
          some ((resolveBaseCN state base).getD ""))
    ∧ (override = .undef →
        resolveClassName state base override = resolveBaseCN state base) := by
  refine ⟨?_, ?_, ?_, ?_, ?_⟩
  · intro h; subst h; rfl
  · intro h hs hb hbne
    subst h
    simp only [resolveClassName, hb, clsx, List.foldl, clsxAdd]
    simp [hs, hbne]
  · intro h hs hb
    subst h
    rcases hb with hb | hb <;>
      · simp only [resolveClassName, hb, clsx, List.foldl, clsxAdd]
        simp [hs]
  · intro h
    subst h
    cases hb : resolveBaseCN state base with
    | none => simp [resolveClassName, hb, clsx, clsxAdd]
    | some b0 =>
      simp only [resolveClassName, hb, clsx, List.foldl, clsxAdd]
      by_cases hb0 : b0 = "" <;> simp [hb0]
  · intro h; subst h; rfl

/-- C3 witness: base `"card"` and override `"card-primary"` join to
`"card card-primary"`; an absent override returns the base. -/
theorem resolveClassName_spec_witness :
    resolveClassName (0 : Nat) (.str "card") (.str "card-primary")
        = some ("card" ++ " " ++ "card-primary")
    ∧ resolveClassName (0 : Nat) (.str "card") .undef = some "card" :=
  ⟨(resolveClassName_spec (0 : Nat) (.str "card") (.str "card-primary")
      (fun _ _ => none) "card-primary" "card").2.1 rfl (by decide) rfl (by decide),
   (resolveClassName_spec (0 : Nat) (.str "card") .undef
      (fun _ _ => none) "" "").2.2.2.2 rfl⟩

/-- C6: attaching the composed ref with a non-null instance assigns the
instance to each non-null target in list order, skipping absent targets
silently (they contribute no event); for each target a cleanup is recorded —
the callback-returned one when there is one, a synthesized null-assignment
otherwise; detaching invokes all recorded cleanups in the order they were
recorded. -/
theorem mergeRefs_behavior (refs : List (Option RefTarget)) (inst : Inst)
    (w w2 : RefWorld) (idx : Nat)
    (hmem : some (RefTarget.obj idx) ∈ refs) :
    (mergeRefs refs (some inst) w).1.log
        = w.log ++ refs.filterMap (attachEvent (some inst))
    ∧ (mergeRefs refs (some inst) w).1.slots idx = some inst
    ∧ (mergeRefsAttach refs (some inst) w).2 = refs.map recordedCleanup
    ∧ ((mergeRefs refs (some inst) w).2 w2).log
        = w2.log ++ refs.filterMap detachEvent := by
  rcases hA : mergeRefsAttach refs (some inst) w with ⟨w1, cleanups⟩
  have hdef : mergeRefs refs (some inst) w =
      (w1, fun w3 => runCleanups cleanups w3) := by
    unfold mergeRefs
    rw [hA]
  have hw1 : w1 = (refs.foldl (mergeRefsStep (some inst)) (w, [])).1 := by
    rw [show refs.foldl (mergeRefsStep (some inst)) (w, []) =
          mergeRefsAttach refs (some inst) w from rfl, hA]
  have hcl : cleanups = refs.map recordedCleanup := by
    have h2 := attachFoldl_snd refs (some inst) w []
    rw [show refs.foldl (mergeRefsStep (some inst)) (w, []) =
          mergeRefsAttach refs (some inst) w from rfl, hA] at h2
    simpa using h2
  refine ⟨?_, ?_, ?_, ?_⟩
  · rw [hdef]
    simpa [hw1] using attachFoldl_fst_log refs (some inst) w []
  · rw [hdef]
    have := attachFoldl_fst_slots refs (some inst) w [] idx
    rw [← hw1] at this
    simp [this, hmem]
  · exact hcl
  · rw [hdef]
    simpa [hcl] using runCleanups_map_log refs w2

/-- C6 witness: composing an object ref, an absent slot, a callback ref with
cleanup and one without, then attaching instance `7` and detaching. -/
theorem mergeRefs_behavior_witness :
    (mergeRefs exRefs (some 7) emptyWorld).1.log
        = [.objAssign 0 (some 7), .cbCall 1 (some 7), .cbCall 2 (some 7)]
    ∧ (mergeRefs exRefs (some 7) emptyWorld).1.slots 0 = some 7
    ∧ ((mergeRefs exRefs (some 7) emptyWorld).2 emptyWorld).log
        = [.objAssign 0 none, .cbCleanupRun 1, .cbCall 2 none] := by
  have h := mergeRefs_behavior exRefs 7 emptyWorld emptyWorld 0 (by decide)
  refine ⟨?_, h.2.1, ?_⟩
  · rw [h.1]; rfl
  · rw [h.2.2.2]; rfl

/-- The `renderItem` function returned by the container resolver, spelled out:
`children !== undefined ? children : baseChildren`, invoked with the item
state when a function. -/
theorem useRenderContainer_renderItem {CS IS : Type} (tag : String)
    (containerState : CS) (base : CBase IS) (props : CProps CS IS)
    (itemState : IS) :
    (useRenderContainer tag containerState base props).renderItem itemState =
      resolveKids
        (match props.children with
         | Kids.undef => base.children
         | c => c) itemState := rfl

/-- C5: whenever the consumer provided children (any non-undefined value),
`renderItem` resolves them with the caller-supplied item state and the base
children are irrelevant on every call; the base children, resolved with the
item state, are used only when the consumer children are undefined. -/
theorem renderItem_shadowing {CS IS : Type} (tag : String) (containerState : CS)
    (base base2 : CBase IS) (props : CProps CS IS) (itemState : IS)
    (hne : props.children ≠ Kids.undef) :
    (useRenderContainer tag containerState base props).renderItem itemState
        = resolveKids props.children itemState
    ∧ (useRenderContainer tag containerState base props).renderItem itemState
        = (useRenderContainer tag containerState base2 props).renderItem itemState
    ∧ (useRenderContainer tag containerState base
          { props with children := Kids.undef }).renderItem itemState
        = resolveKids base.children itemState := by
  have hmatch : (match props.children with
      | Kids.undef => base.children
      | c => c) = props.children := by
    cases hpc : props.children with
    | undef => exact absurd hpc hne
    | null => rfl
    | text s => rfl
    | fn f => rfl
  have hmatch2 : (match props.children with
      | Kids.undef => base2.children
      | c => c) = props.children := by
    cases hpc : props.children with
    | undef => exact absurd hpc hne
    | null => rfl
    | text s => rfl
    | fn f => rfl
  refine ⟨?_, ?_, ?_⟩
  · rw [useRenderContainer_renderItem, hmatch]
  · rw [useRenderContainer_renderItem, useRenderContainer_renderItem, hmatch,
      hmatch2]
  · rw [useRenderContainer_renderItem]

/-- C5 witness: consumer children as a function of item state resolve with the
item state, independently of the base children. -/
theorem renderItem_shadowing_witness :
    (useRenderContainer "ul" 3 c5Base c5Props).renderItem 0 = Kids.text "Apple"
    ∧ (useRenderContainer "ul" 3 c5Base c5Props).renderItem 0
        = (useRenderContainer "ul" 3 c5Base2 c5Props).renderItem 0 := by
  have h := renderItem_shadowing "ul" 3 c5Base c5Base2 c5Props 0
    (fun hh => nomatch hh)
  exact ⟨by rw [h.1]; rfl, h.2.1⟩

/-- C2 counterexample: the container resolver invokes a consumer render
function with the resolved attributes object as the FIRST positional argument
and the container state second, so the state is not uniformly the first
argument across resolver variants. -/
theorem container_render_props_first :
    (useRenderContainer "ul" 3 probeCBase probeCProps).container .undef
        = RNode.created "first-arg-props" ⟨[], none, none⟩ .undef
    ∧ "first-arg-props" ≠ "first-arg-state" := ⟨rfl, by decide⟩

/-- C2 (amended): the single-state resolver of `use-render.ts` invokes a
consumer render function with the state first and the resolved attributes
(with children attached) second, while the container resolver invokes it with
the resolved attributes first and the container state second; the argument
order is not uniform across the resolver variants. -/
theorem render_argument_order {S CS IS : Type} (tag : String) (state : S)
    (base : URBase S) (props : URProps S) (f : RArg S → RArg S → RNode S)
    (ctag : String) (containerState : CS) (cbase : CBase IS)
    (cprops : CProps CS IS) (g : RArg CS → RArg CS → RNode CS) (cc : Kids CS)
    (hf : props.render = .fn f) (hg : cprops.render = .fn g) :
    useRender tag state base props
        = f (.state state)
            (.props (resolveRenderProps state base props,
                     resolveKids props.children state))
    ∧ (useRenderContainer ctag containerState cbase cprops).container cc
        = g (.props ((useRenderContainer ctag containerState cbase
                        cprops).containerProps, cc))
            (.state containerState) := by
  constructor
  · unfold useRender
    rw [hf]
  · unfold useRenderContainer
    rw [hg]

/-- C2 witness: the probing render function observes `(state, attributes)`
from `useRender` and `(attributes, state)` from the container resolver. -/
theorem render_argument_order_witness :
    useRender "button" 0 c2URBase c2URProps
        = probeRender (.state 0)
            (.props (resolveRenderProps 0 c2URBase c2URProps,
                     resolveKids c2URProps.children 0))
    ∧ (useRenderContainer "ul" 3 probeCBase probeCProps).container .undef
        = probeRender
            (.props ((useRenderContainer "ul" 3 probeCBase
                        probeCProps).containerProps, .undef))
            (.state 3) :=
  render_argument_order "button" 0 c2URBase c2URProps probeRender "ul" 3
    probeCBase probeCProps probeRender .undef rfl rfl

/-- C4 counterexample: with base children `"Default"`, no consumer children
and an element render override, the clone receives `undefined` children — the
base children do not reach the element-clone branch. -/
theorem useRender_clone_ignores_base_children :
    useRender "div" (0 : Nat) cloneExBase cloneExProps
        = RNode.cloned 5 ⟨[], none, none⟩ Kids.undef
    ∧ (Kids.undef : Kids Nat) ≠ Kids.text "Default" :=
  ⟨rfl, fun h => nomatch h⟩

/-- C4 (amended): the resolved children are the consumer children, invoked
eagerly with the state when a function, and they are what the element-clone
and render-function branches receive; the base children serve as fallback only
in the default-tag branch, taken verbatim (never invoked) when the resolved
consumer children are nullish. -/
theorem useRender_children_resolution {S : Type} (tag : String) (state : S)
    (base : URBase S) (props : URProps S) (id : Nat)
    (f : RArg S → RArg S → RNode S) :
    (props.render = .none →
      useRender tag state base props
        = .created tag (resolveRenderProps state base props)
            (if kidsNullish (resolveKids props.children state) then
               base.children
             else resolveKids props.children state))
    ∧ (props.render = .elem id →
      useRender tag state base props
        = .cloned id (resolveRenderProps state base props)
            (resolveKids props.children state))
    ∧ (props.render = .fn f →
      useRender tag state base props
        = f (.state state)
            (.props (resolveRenderProps state base props,
                     resolveKids props.children state))) := by
  refine ⟨?_, ?_, ?_⟩ <;> (intro h; unfold useRender; rw [h])

/-- C4 witness: with an element render override, the clone receives the
eagerly resolved consumer children. -/
theorem useRender_children_resolution_witness :
    useRender "div" (0 : Nat) cloneExBase cloneExProps
        = RNode.cloned 5 (resolveRenderProps 0 cloneExBase cloneExProps)
            (resolveKids cloneExProps.children 0) :=
  (useRender_children_resolution "div" 0 cloneExBase cloneExProps 5
    probeRender).2.1 rfl

/-- C8 counterexample: `renderSlot` resolves children with `??`, so an
explicitly passed `null` consumer children value falls back to the base
children instead of overriding them. -/
theorem renderSlot_null_children_fall_back :
    renderSlot "div" slotExBase slotNullChildrenProps
        = RNode.created "div" ⟨[], some "", none⟩ (Kids.text "Default")
    ∧ Kids.text "Default" ≠ (Kids.null : Kids Unit) :=
  ⟨rfl, fun h => nomatch h⟩

/-- C8 (amended): in the stateless slot resolver the consumer children count
as provided only when non-nullish — both `undefined` and `null` fall back to
the base children (`children ?? baseChildren`) — and the resolved children are
used in every dispatch branch. -/
theorem renderSlot_children_resolution (tag : String) (base : SlotBase)
    (props : SlotProps) (id : Nat) (f : RProps × Kids Unit → RNode Unit) :
    (props.render = .none →
      renderSlot tag base props
        = .created tag (resolveSlotProps base props)
            (if kidsNullish props.children then base.children
             else props.children))
    ∧ (props.render = .elem id →
      renderSlot tag base props
        = .cloned id (resolveSlotProps base props)
            (if kidsNullish props.children then base.children
             else props.children))
    ∧ (props.render = .fn f →
      renderSlot tag base props
        = f (resolveSlotProps base props,
             if kidsNullish props.children then base.children
             else props.children)) := by
  refine ⟨?_, ?_, ?_⟩ <;> (intro h; unfold renderSlot; rw [h])

/-- C8 witness: non-nullish consumer children (`"Mine"`) override the base
children in the default-tag branch. -/
theorem renderSlot_children_resolution_witness :
    renderSlot "div" slotExBase c8WitProps
        = RNode.created "div" (resolveSlotProps slotExBase c8WitProps)
            (if kidsNullish c8WitProps.children then slotExBase.children
             else c8WitProps.children) :=
  (renderSlot_children_resolution "div" slotExBase c8WitProps 0
    (fun p => RNode.created "x" p.1 p.2)).1 rfl

/-- C9 counterexample: a base style that is the empty object `{}` is truthy,
so the resolved attributes carry a style entry even though both sides are
empty or absent. -/
theorem renderSlot_empty_style_attached :
    renderSlot "div" slotEmptyStyleBase slotEmptyProps
        = RNode.created "div" ⟨[], some "", some []⟩ Kids.undef
    ∧ some ([] : StyleObj) ≠ none := ⟨rfl, by simp⟩

/-- C9 (amended): the merged style of the slot resolver is the shallow merge
of base then consumer whenever either side is provided (any object, the empty
one included), and absent exactly when both sides are absent; on the merged
object the consumer value wins key by key. -/
theorem renderSlot_style_merge (base : SlotBase) (props : SlotProps)
    (k : String) (hp : (keys (props.style.getD [])).Nodup) :
    ((resolveSlotProps base props).style.isSome
        ↔ (base.style.isSome ∨ props.style.isSome))
    ∧ (base.style.isSome ∨ props.style.isSome →
        (resolveSlotProps base props).style
          = some (spread (base.style.getD []) (props.style.getD [])))
    ∧ (lookup (spread (base.style.getD []) (props.style.getD [])) k
        = orD (lookup (props.style.getD []) k)
            (lookup (base.style.getD []) k)) := by
  refine ⟨?_, ?_, lookup_spread _ _ _ hp⟩
  · unfold resolveSlotProps
    by_cases hb : base.style.isSome <;> by_cases hp2 : props.style.isSome <;>
      simp [hb, hp2]
  · intro h
    unfold resolveSlotProps
    rcases h with h | h <;> simp [h]

/-- C9 witness: `{padding: "10px", margin: "5px"}` under
`{padding: "20px", color: "red"}` merges with the consumer winning on
`padding`. -/
theorem renderSlot_style_merge_witness :
    (resolveSlotProps c9WitBase c9WitProps).style
        = some (spread [("padding", "10px"), ("margin", "5px")]
            [("padding", "20px"), ("color", "red")])
    ∧ lookup (spread [("padding", "10px"), ("margin", "5px")]
        [("padding", "20px"), ("color", "red")]) "padding" = some "20px" := by
  have h := renderSlot_style_merge c9WitBase c9WitProps "padding" (by decide)
  refine ⟨h.2.1 (Or.inl rfl), ?_⟩
  have h3 := h.2.2
  rw [show c9WitProps.style.getD [] = [("padding", "20px"), ("color", "red")]
        from rfl,
      show c9WitBase.style.getD [] = [("padding", "10px"), ("margin", "5px")]
        from rfl] at h3
  rw [h3]
  rfl

/-- C10: the attribute map of the stateful resolver carries a className entry
exactly when `resolveClassName` yields a string and a style entry exactly when
`resolveStyle` yields an object; consequently a consumer className function
returning `undefined` suppresses the entry even over a non-empty base class
name; in the slot resolver the className entry is the (always present) `cx`
string, and the style entry is present exactly when either side provided a
style. -/
theorem resolved_attrs_entry_presence {S : Type} (state : S) (base : URBase S)
    (props : URProps S) (sb : SlotBase) (sp : SlotProps) (b : String)
    (_hbase : base.className = .str b)
    (hfn : props.className = cnFnNone)
    (_hb : b ≠ "") :
    ((resolveRenderProps state base props).className
        = resolveClassName state base.className props.className)
    ∧ ((resolveRenderProps state base props).style
        = resolveStyle state base.style props.style)
    ∧ (resolveRenderProps state base props).className = none
    ∧ ((resolveSlotProps sb sp).className
        = some (clsx [sb.className, sp.className]))
    ∧ ((resolveSlotProps sb sp).style.isSome
        ↔ (sb.style.isSome ∨ sp.style.isSome)) := by
  refine ⟨rfl, rfl, ?_, rfl, ?_⟩
  · unfold resolveRenderProps
    rw [hfn]
    rfl
  · unfold resolveSlotProps
    by_cases h1 : sb.style.isSome <;> by_cases h2 : sp.style.isSome <;>
      simp [h1, h2]

/-- C10 witness: base className `"card"` with a consumer function returning
`undefined` yields no className entry at all. -/
theorem resolved_attrs_entry_presence_witness :
    (resolveRenderProps (0 : Nat) c10Base c10Props).className = none :=
  (resolved_attrs_entry_presence 0 c10Base c10Props slotEmptyStyleBase
    slotEmptyProps "card" rfl rfl (by decide)).2.2.1

end UseRender
